import Mathlib

/-!
Verification of `kytos/core/interface.py`.

This file gives a shallow embedding of the `TAG` / `Interface` classes of
`src/kytos/core/interface.py` and proves the specification claims about
them.  Python lists become Lean `List`s (method calls that mutate
`self.available_tags` become functions returning the new pool, paired with
the method's return value), Python `int` becomes `ℤ` (or `ℕ` for bitmasks),
Python numbers that may be `int` or `float` become the `PyNum` sum type,
and `None` becomes `Option.none`.
-/

/-- Tag type enumeration, from `class TAGType(IntEnum)` in the source:
`VLAN = 1`, `VLAN_QINQ = 2`, `MPLS = 3`. -/
inductive TAGType where
  | VLAN
  | VLAN_QINQ
  | MPLS
  deriving DecidableEq, Repr

/-- Integer value of each `TAGType` member of the source `IntEnum`. -/
def TAGType.toInt : TAGType → ℤ
  | .VLAN => 1
  | .VLAN_QINQ => 2
  | .MPLS => 3

/-- Embedding of `class TAG`: a tag type together with an integer value.
The derived structural equality coincides with the source
`TAG.__eq__`, which compares `tag_type` and `value`. -/
structure TAG where
  tag_type : TAGType
  value : ℤ
  deriving DecidableEq, Repr

/-- Initial contents of `Interface.available_tags`, from the constructor loop
`for i in range(1, 4096): self.available_tags.append(TAG(TAGType.VLAN, i))`:
VLAN tags with values `1, 2, ..., 4095`, appended in ascending order. -/
def initialAvailableTags : List TAG :=
  (List.range' 1 4095).map (fun (i : ℕ) => ⟨TAGType.VLAN, (i : ℤ)⟩)

/-- Embedding of `Interface.use_tag`: scan `available_tags` front to back for
the first entry equal to `tag`; if found remove it (Python
`list.remove` removes the first equal element, which is the one found)
and return `True`, otherwise return `False`.  The result pairs the new
pool with the returned boolean. -/
def use_tag : List TAG → TAG → List TAG × Bool
  | [], _ => ([], false)
  | t :: ts, tag =>
      if tag = t then (ts, true)
      else
        let r := use_tag ts tag
        (t :: r.1, r.2)

/-- Embedding of `Interface.is_tag_available`: membership test
`tag in self.available_tags` under `TAG.__eq__`. -/
def is_tag_available (pool : List TAG) (tag : TAG) : Bool :=
  decide (tag ∈ pool)

/-- Embedding of `Interface.get_next_available_tag`: `self.available_tags.pop()`
removes and returns the LAST list element; on an empty list Python raises
`IndexError`, which the source catches and turns into the return value
`False`.  We model the `False` failure return as `none` and a popped tag
as `some`; the result pairs the new pool with that return value. -/
def get_next_available_tag (pool : List TAG) : List TAG × Option TAG :=
  match pool.getLast? with
  | some t => (pool.dropLast, some t)
  | none => (pool, none)

/-- Embedding of `Interface.make_tag_available`: if `tag` is not already in
`available_tags`, append it at the end; otherwise leave the pool unchanged
(the source returns `False` in that branch and appends in the other). -/
def make_tag_available (pool : List TAG) (tag : TAG) : List TAG :=
  if is_tag_available pool tag then pool else pool ++ [tag]

/-! Numeric model.  The source mixes Python `int` and `float`: the feature
table computes speeds with true division `/`, which in Python always
produces a `float`, while a caller-supplied custom speed is stored and
returned unmodified.  `PyNum` keeps that type distinction; all values
appearing here are exactly representable, so `float` arithmetic is modelled
by exact rational arithmetic. -/

/-- Model of a Python number: either an `int` or a `float` (kept exact as a
rational; every value occurring in the source is exactly representable). -/
inductive PyNum where
  | int (n : ℤ)
  | float (q : ℚ)
  deriving DecidableEq, Repr

/-- Numeric value of a `PyNum`; Python comparisons between `int` and
`float` compare these values. -/
def PyNum.toRat : PyNum → ℚ
  | .int n => (n : ℚ)
  | .float q => q

/-- Python multiplication: `int * int` is an `int`; if either operand is a
`float` the result is a `float`. -/
def PyNum.mul : PyNum → PyNum → PyNum
  | .int a, .int b => .int (a * b)
  | a, b => .float (a.toRat * b.toRat)

/-- Python true division `/`: the result is always a `float`, whatever the
operand types (all divisors in the source are nonzero). -/
def PyNum.truediv (a b : PyNum) : PyNum :=
  .float (a.toRat / b.toRat)

/-- Python `round` on a `float`, yielding an `int`: round half to even. -/
def ratRoundHalfToEven (q : ℚ) : ℤ :=
  let f := ⌊q⌋
  let r := q - f
  if r < 1 / 2 then f
  else if 1 / 2 < r then f + 1
  else if f % 2 = 0 then f else f + 1

/-- Python one-argument `round`: identity on `int`, round half to even on
`float`. -/
def pyRound : PyNum → ℤ
  | .int n => n
  | .float q => ratRoundHalfToEven q

/-! Port feature bitmasks.  `pyof.v0x01.common.phy_port.PortFeatures` and
`pyof.v0x04.common.port.PortFeatures` are an external library (the standard
OpenFlow 1.0 / 1.3 `ofp_port_features` constants); only the bits the source
reads are listed. -/

namespace PortFeatures01

def OFPPF_10MB_HD : ℕ := 1
def OFPPF_10MB_FD : ℕ := 2
def OFPPF_100MB_HD : ℕ := 4
def OFPPF_100MB_FD : ℕ := 8
def OFPPF_1GB_HD : ℕ := 16
def OFPPF_1GB_FD : ℕ := 32
def OFPPF_10GB_FD : ℕ := 64

end PortFeatures01

namespace PortFeatures04

def OFPPF_40GB_FD : ℕ := 128
def OFPPF_100GB_FD : ℕ := 256
def OFPPF_1TB_FD : ℕ := 512

end PortFeatures04

/-- Modelled from the spec: the Switch collaborator (`kytos.core.switch`,
not under `src/`) "must expose a stable identifier, a connectivity flag,
and — when connected — the negotiated protocol generation".  `dpid` is the
identifier, `is_connected` the flag, and `protocol_version` stands for
`switch.connection.protocol.version`, which the source only reads after
checking `is_connected()`. -/
structure Switch where
  dpid : String
  is_connected : Bool
  protocol_version : ℕ

/-- Embedding of the `Interface` attributes the claims depend on.
`_custom_speed` holds the constructor's `speed` argument (later changed by
`set_custom_speed`), `features` the truthiness-tested bitmask (Python
`None` becomes `none`), `stats` an already-rendered statistics record
(`None` becomes `none`), and `metadata` stands for the attribute inherited
from the external `GenericEntity` base.  The attributes `state` and
`endpoints` play no role in any claim and are omitted. -/
structure Interface where
  name : String
  port_number : ℤ
  switch : Switch
  address : Option String
  features : Option ℕ
  _custom_speed : Option PyNum
  nni : Bool
  available_tags : List TAG
  metadata : List (String × String)
  stats : Option (List (String × String))

/-- Embedding of the `Interface.id` property:
`"{}:{}".format(self.switch.dpid, self.port_number)`. -/
def Interface.id (i : Interface) : String :=
  i.switch.dpid ++ ":" ++ toString i.port_number

/-- Embedding of the `Interface.uni` property: `not self.nni`. -/
def Interface.uni (i : Interface) : Bool :=
  !i.nni

/-- Python truthiness of the optional `features` bitmask: `None` and `0`
are falsy. -/
def featTruthy (fts : Option ℕ) : Bool :=
  match fts with
  | none => false
  | some n => n != 0

/-- Embedding of the source's guard pattern `fts and fts & mask`: true iff
`fts` is truthy and the masked bits are nonzero. -/
def featTest (fts : Option ℕ) (mask : ℕ) : Bool :=
  featTruthy fts && ((fts.getD 0) &&& mask != 0)

/-- Embedding of `Interface._get_v0x01_v0x04_speed`: the
version-independent feature tiers, highest first, each speed computed as
`<bits per second> / 8` by true division. -/
def Interface._get_v0x01_v0x04_speed (i : Interface) : Option PyNum :=
  if featTest i.features PortFeatures01.OFPPF_10GB_FD then
    some (PyNum.truediv (.int (10 * 10 ^ 9)) (.int 8))
  else if featTest i.features
      (PortFeatures01.OFPPF_1GB_HD ||| PortFeatures01.OFPPF_1GB_FD) then
    some (PyNum.truediv (.int (10 ^ 9)) (.int 8))
  else if featTest i.features
      (PortFeatures01.OFPPF_100MB_HD ||| PortFeatures01.OFPPF_100MB_FD) then
    some (PyNum.truediv (.int (100 * 10 ^ 6)) (.int 8))
  else if featTest i.features
      (PortFeatures01.OFPPF_10MB_HD ||| PortFeatures01.OFPPF_10MB_FD) then
    some (PyNum.truediv (.int (10 * 10 ^ 6)) (.int 8))
  else none

/-- Embedding of `Interface._get_v0x04_speed`: the version-4-only feature
tiers, highest first. -/
def Interface._get_v0x04_speed (i : Interface) : Option PyNum :=
  if featTest i.features PortFeatures04.OFPPF_1TB_FD then
    some (PyNum.truediv (.int (10 ^ 12)) (.int 8))
  else if featTest i.features PortFeatures04.OFPPF_100GB_FD then
    some (PyNum.truediv (.int (100 * 10 ^ 9)) (.int 8))
  else if featTest i.features PortFeatures04.OFPPF_40GB_FD then
    some (PyNum.truediv (.int (40 * 10 ^ 9)) (.int 8))
  else none

/-- Embedding of `Interface._is_v0x04`: `self.switch.is_connected() and
self.switch.connection.protocol.version == 0x04`. -/
def Interface._is_v0x04 (i : Interface) : Bool :=
  i.switch.is_connected && (i.switch.protocol_version == 4)

/-- Embedding of `Interface.get_of_features_speed`: try the
version-independent table; if it found nothing and the switch is
v0x04-connected, try the version-4 table; a remaining `None` is returned
after the warning log (the log itself has no effect on the result). -/
def Interface.get_of_features_speed (i : Interface) : Option PyNum :=
  match i._get_v0x01_v0x04_speed with
  | some s => some s
  | none => if i._is_v0x04 then i._get_v0x04_speed else none

/-- Embedding of the `Interface.speed` property: a custom speed, when set,
is returned unconditionally; otherwise the feature-derived speed. -/
def Interface.speed (i : Interface) : Option PyNum :=
  match i._custom_speed with
  | some v => some v
  | none => i.get_of_features_speed

/-- Embedding of `Interface.set_custom_speed`: overwrite `_custom_speed`. -/
def Interface.set_custom_speed (i : Interface) (bytes_per_second : Option PyNum) :
    Interface :=
  { i with _custom_speed := bytes_per_second }

/-- Embedding of `Interface.get_custom_speed`. -/
def Interface.get_custom_speed (i : Interface) : Option PyNum :=
  i._custom_speed

/-- Embedding of `Interface.get_hr_speed`: empty string when the speed is
unknown; otherwise multiply by 8 (bits per second) and format — exactly
10^12 gives "1 Tbps", at least 10^9 gives rounded Gbps, anything smaller
rounded Mbps. -/
def Interface.get_hr_speed (i : Interface) : String :=
  match i.speed with
  | none => ""
  | some v =>
      let s := PyNum.mul v (.int 8)
      if s.toRat = 10 ^ 12 then "1 Tbps"
      else if 10 ^ 9 ≤ s.toRat then
        toString (pyRound (PyNum.truediv s (.int (10 ^ 9)))) ++ " Gbps"
      else
        toString (pyRound (PyNum.truediv s (.int (10 ^ 6)))) ++ " Mbps"

/-- Embedding of the string arm of `Interface.__eq__`: an interface equals
a string iff its `address` equals it (a `None` address never equals a
string). -/
def Interface.eq_str (i : Interface) (other : String) : Bool :=
  match i.address with
  | some a => a == other
  | none => false

/-- Embedding of the Interface arm of `Interface.__eq__`: port number,
name, address and the owning switch's dpid must all match. -/
def Interface.eq_iface (i other : Interface) : Bool :=
  i.port_number == other.port_number &&
  i.name == other.name &&
  i.address == other.address &&
  i.switch.dpid == other.switch.dpid

/-- Fields of the dictionary built by `Interface.as_dict`; the optional
`stats` field models the key that is added only when `self.stats` is
truthy. -/
structure InterfaceDict where
  id : String
  name : String
  port_number : ℤ
  mac : Option String
  switch : String
  type : String
  nni : Bool
  uni : Bool
  speed : Option PyNum
  metadata : List (String × String)
  stats : Option (List (String × String))

/-- Embedding of `Interface.as_dict`. -/
def Interface.as_dict (i : Interface) : InterfaceDict :=
  { id := i.id
    name := i.name
    port_number := i.port_number
    mac := i.address
    switch := i.switch.dpid
    type := "interface"
    nni := i.nni
    uni := i.uni
    speed := i.speed
    metadata := i.metadata
    stats := i.stats }
/-! Concrete fixtures used by the claims below: freshly constructed
interfaces differing only in the attributes each claim varies. -/

/-- Fixture: an Interface as produced by the constructor, with the given
switch, `features` and `speed` arguments (name "eth0", port 1, no address,
seeded tag pool, empty metadata, no stats). -/
def mkIface (sw : Switch) (fts : Option ℕ) (cs : Option PyNum) : Interface :=
  { name := "eth0"
    port_number := 1
    switch := sw
    address := none
    features := fts
    _custom_speed := cs
    nni := false
    available_tags := initialAvailableTags
    metadata := []
    stats := none }

/-- Fixture: a disconnected switch with dpid `00:00:00:00:00:00:00:01`. -/
def swA : Switch := ⟨"00:00:00:00:00:00:00:01", false, 0⟩

/-- Fixture: a disconnected switch with dpid `00:00:00:00:00:00:00:02`. -/
def swC : Switch := ⟨"00:00:00:00:00:00:00:02", false, 0⟩

/-- Fixture: Interface A of the identity-equality scenario (port 2, name
"eth0", address `00:11:22:33:44:55`, switch `swA`). -/
def ifaceA : Interface :=
  { name := "eth0"
    port_number := 2
    switch := swA
    address := some "00:11:22:33:44:55"
    features := none
    _custom_speed := none
    nni := false
    available_tags := initialAvailableTags
    metadata := []
    stats := none }

/-- Fixture: Interface B — the same four compared fields as `ifaceA` but a
distinct object: other attributes differ. -/
def ifaceB : Interface :=
  { ifaceA with features := some 64, nni := true, metadata := [("k", "v")] }

/-- Fixture: Interface C — identical to `ifaceA` except for the owning
switch's dpid. -/
def ifaceC : Interface :=
  { ifaceA with switch := swC }

/-! Helper lemmas about the pool operations. -/

/-- The map underlying the seeded pool is injective in the range index. -/
theorem initialTags_fun_injective :
    Function.Injective (fun i : ℕ => (⟨TAGType.VLAN, (i : ℤ)⟩ : TAG)) := by
  intro a b h
  have : ((a : ℤ)) = (b : ℤ) := congrArg TAG.value h
  exact_mod_cast this

/-- `use_tag` only ever deletes elements: the resulting pool is a sublist. -/
theorem use_tag_sublist (pool : List TAG) (tag : TAG) :
    (use_tag pool tag).1.Sublist pool := by
  induction pool with
  | nil => simp [use_tag]
  | cons t ts ih =>
      by_cases h : tag = t
      · simp [use_tag, h]
      · simpa [use_tag, h] using ih.cons₂ t

/-- C1 helper: length of the seeded pool. -/
theorem initialAvailableTags_length : initialAvailableTags.length = 4095 := by
  simp [initialAvailableTags]

/-- C1 helper: the seeded pool has no duplicates. -/
theorem initialAvailableTags_nodup : initialAvailableTags.Nodup :=
  (List.nodup_range' 1 4095).map initialTags_fun_injective

/-- C1 helper: membership in the seeded pool. -/
theorem mem_initialAvailableTags (t : TAG) :
    t ∈ initialAvailableTags ↔
      t.tag_type = TAGType.VLAN ∧ 1 ≤ t.value ∧ t.value ≤ 4095 := by
  unfold initialAvailableTags
  rw [List.mem_map]
  constructor
  · rintro ⟨i, hi, rfl⟩
    rw [List.mem_range'_1] at hi
    refine ⟨rfl, ?_, ?_⟩ <;> simp <;> omega
  · rintro ⟨htype, h1, h2⟩
    refine ⟨t.value.toNat, ?_, ?_⟩
    · rw [List.mem_range'_1]; omega
    · cases t with
      | mk ty v =>
          simp only at htype h1 h2
          subst htype
          simp only [TAG.mk.injEq, true_and]
          omega

/-- C1: a freshly constructed Interface's `available_tags` pool contains
exactly 4095 distinct tags — one VLAN tag for each value in the inclusive
range 1..4095 — listed in ascending order of value. -/
theorem initial_pool_spec :
    initialAvailableTags.length = 4095 ∧
    initialAvailableTags.Nodup ∧
    (∀ t : TAG, t ∈ initialAvailableTags ↔
      t.tag_type = TAGType.VLAN ∧ 1 ≤ t.value ∧ t.value ≤ 4095) ∧
    List.Pairwise (fun a b : TAG => a.value < b.value) initialAvailableTags := by
  refine ⟨initialAvailableTags_length, initialAvailableTags_nodup,
    mem_initialAvailableTags, ?_⟩
  unfold initialAvailableTags
  refine List.Pairwise.map _ ?_ (List.pairwise_lt_range' 1 4095)
  intro a b hab
  simpa using hab

/-- C7: on an empty pool, `get_next_available_tag` returns the recoverable
failure value (`none`, the model of the source's `return False` on
`IndexError`) and the pool stays empty — no exception escapes. -/
theorem get_next_available_tag_empty :
    get_next_available_tag ([] : List TAG) = ([], none) := rfl

/-- The seeded pool splits off its last element, the VLAN tag 4095. -/
theorem initialAvailableTags_concat :
    initialAvailableTags =
      ((List.range' 1 4094).map (fun (i : ℕ) => (⟨TAGType.VLAN, (i : ℤ)⟩ : TAG)))
        ++ [⟨TAGType.VLAN, 4095⟩] := by
  unfold initialAvailableTags
  rw [show (4095 : ℕ) = 4094 + 1 from rfl, List.range'_concat, List.map_append]
  norm_num

/-- C2: `get_next_available_tag` follows stack (LIFO) discipline: on any
non-empty pool it removes and returns the last list element, which is the
most recently inserted remaining tag since both seeding and
`make_tag_available` append at the end; on the freshly seeded pool the
returned tag is the VLAN tag 4095 and 4094 entries remain. -/
theorem get_next_available_tag_lifo :
    (∀ (pool : List TAG) (h : pool ≠ []),
      get_next_available_tag pool = (pool.dropLast, some (pool.getLast h))) ∧
    (get_next_available_tag initialAvailableTags).2 =
      some ⟨TAGType.VLAN, 4095⟩ ∧
    (get_next_available_tag initialAvailableTags).1.length = 4094 := by
  refine ⟨?_, ?_, ?_⟩
  · intro pool h
    simp only [get_next_available_tag, List.getLast?_eq_getLast pool h]
  · rw [initialAvailableTags_concat]
    simp only [get_next_available_tag, List.getLast?_concat]
  · rw [initialAvailableTags_concat]
    simp only [get_next_available_tag, List.getLast?_concat, List.dropLast_concat]
    simp

/-- C2 witness: applying the LIFO theorem to the one-element pool. -/
theorem get_next_available_tag_lifo_witness :
    get_next_available_tag [(⟨TAGType.VLAN, 7⟩ : TAG)] =
      ([], some ⟨TAGType.VLAN, 7⟩) := by
  exact get_next_available_tag_lifo.1 [⟨TAGType.VLAN, 7⟩] (by decide)

/-- C5: the pool never holds two equal tags: the seeded pool is
duplicate-free, and each of `use_tag`, `get_next_available_tag` and
`make_tag_available` preserves duplicate-freeness; moreover releasing a tag
already present (`make_tag_available` on a member) leaves the pool
unchanged, so it never duplicates the tag. -/
theorem pool_nodup_invariant :
    initialAvailableTags.Nodup ∧
    (∀ (pool : List TAG) (tag : TAG), pool.Nodup → (use_tag pool tag).1.Nodup) ∧
    (∀ pool : List TAG, pool.Nodup → (get_next_available_tag pool).1.Nodup) ∧
    (∀ (pool : List TAG) (tag : TAG), pool.Nodup →
      (make_tag_available pool tag).Nodup) ∧
    (∀ (pool : List TAG) (tag : TAG), tag ∈ pool →
      make_tag_available pool tag = pool) := by
  refine ⟨initialAvailableTags_nodup, ?_, ?_, ?_, ?_⟩
  · intro pool tag h
    exact List.Nodup.sublist (use_tag_sublist pool tag) h
  · intro pool h
    rcases hp : pool.getLast? with _ | t
    · simpa [get_next_available_tag, hp] using h
    · simp only [get_next_available_tag, hp]
      exact List.Nodup.sublist (List.dropLast_sublist pool) h
  · intro pool tag h
    unfold make_tag_available
    by_cases hmem : tag ∈ pool
    · simp [is_tag_available, hmem, h]
    · simp only [is_tag_available, hmem, decide_False, Bool.false_eq_true,
        if_false]
      rw [List.nodup_append]
      refine ⟨h, List.nodup_singleton tag, ?_⟩
      intro a ha hb
      rw [List.mem_singleton] at hb
      exact hmem (hb ▸ ha)
  · intro pool tag hmem
    simp [make_tag_available, is_tag_available, hmem]

/-- C5 witness: applying the invariant theorem to concrete one-element
pools. -/
theorem pool_nodup_invariant_witness :
    (use_tag [(⟨TAGType.VLAN, 1⟩ : TAG)] ⟨TAGType.VLAN, 1⟩).1.Nodup ∧
    (get_next_available_tag [(⟨TAGType.VLAN, 1⟩ : TAG)]).1.Nodup ∧
    (make_tag_available [(⟨TAGType.VLAN, 1⟩ : TAG)] ⟨TAGType.VLAN, 2⟩).Nodup ∧
    make_tag_available [(⟨TAGType.VLAN, 1⟩ : TAG)] ⟨TAGType.VLAN, 1⟩ =
      [⟨TAGType.VLAN, 1⟩] :=
  ⟨pool_nodup_invariant.2.1 _ _ (by decide),
   pool_nodup_invariant.2.2.1 _ (by decide),
   pool_nodup_invariant.2.2.2.1 _ _ (by decide),
   pool_nodup_invariant.2.2.2.2 _ _ (by decide)⟩

/-- C6: `use_tag` removes exactly one entry equal to the requested tag and
returns `True` when one is present (the pool shrinks by one, the count of
that tag drops by one, all other counts are unchanged); when no equal entry
is present it returns `False` and leaves the pool untouched — the function
is total, so no exception is possible. -/
theorem use_tag_spec (pool : List TAG) (tag : TAG) :
    (tag ∈ pool →
      (use_tag pool tag).2 = true ∧
      (use_tag pool tag).1.length + 1 = pool.length ∧
      (use_tag pool tag).1.count tag + 1 = pool.count tag ∧
      ∀ s : TAG, s ≠ tag → (use_tag pool tag).1.count s = pool.count s) ∧
    (tag ∉ pool →
      (use_tag pool tag).2 = false ∧ (use_tag pool tag).1 = pool) := by
  induction pool with
  | nil => simp [use_tag]
  | cons t ts ih =>
      by_cases h : tag = t
      · subst h
        refine ⟨fun _ => ?_, fun hmem => absurd (List.mem_cons_self tag ts) hmem⟩
        have hred : use_tag (tag :: ts) tag = (ts, true) := by
          simp [use_tag]
        rw [hred]
        refine ⟨rfl, rfl, by simp [List.count_cons_self], ?_⟩
        intro s hs
        rw [List.count_cons_of_ne hs]
      · simp only [use_tag, if_neg h]
        constructor
        · intro hmem
          have hts : tag ∈ ts := by
            rcases List.mem_cons.mp hmem with h1 | h1
            · exact absurd h1 h
            · exact h1
          obtain ⟨hb, hlen, hcnt, hother⟩ := ih.1 hts
          refine ⟨hb, by simpa using hlen, ?_, ?_⟩
          · rw [List.count_cons_of_ne h, List.count_cons_of_ne h]
            exact hcnt
          · intro s hs
            by_cases hst : s = t
            · subst hst
              have hx := hother s hs
              simp only [List.count_cons_self]
              omega
            · rw [List.count_cons_of_ne hst, List.count_cons_of_ne hst]
              exact hother s hs
        · intro hmem
          have hts : tag ∉ ts := fun hx => hmem (List.mem_cons_of_mem _ hx)
          obtain ⟨hb, heq⟩ := ih.2 hts
          exact ⟨hb, by rw [heq]⟩

/-- C6 witness: applying the reserve theorem at concrete pools, once in the
present case and once in the absent case. -/
theorem use_tag_spec_witness :
    (use_tag [(⟨TAGType.VLAN, 1⟩ : TAG)] ⟨TAGType.VLAN, 1⟩).2 = true ∧
    (use_tag [(⟨TAGType.VLAN, 1⟩ : TAG)] ⟨TAGType.VLAN, 2⟩).2 = false :=
  ⟨((use_tag_spec [⟨TAGType.VLAN, 1⟩] ⟨TAGType.VLAN, 1⟩).1 (by decide)).1,
   ((use_tag_spec [⟨TAGType.VLAN, 1⟩] ⟨TAGType.VLAN, 2⟩).2 (by decide)).1⟩


/-! Helper lemmas for bitmask reasoning. -/

/-- Clearing a mask clears every submask of it. -/
theorem land_sub_zero {fts mask sub : ℕ} (hsub : mask &&& sub = sub)
    (h : fts &&& mask = 0) : fts &&& sub = 0 := by
  rw [← hsub, ← Nat.land_assoc, h, Nat.zero_and]

/-- Bits clear against two masks are clear against their union. -/
theorem land_lor_eq_zero {x a b : ℕ} (ha : x &&& a = 0) (hb : x &&& b = 0) :
    x &&& (a ||| b) = 0 := by
  apply Nat.eq_of_testBit_eq
  intro i
  have hai := congrArg (fun n => n.testBit i) ha
  have hbi := congrArg (fun n => n.testBit i) hb
  simp only [Nat.testBit_land, Nat.zero_testBit] at hai hbi
  simp only [Nat.testBit_land, Nat.testBit_lor, Nat.zero_testBit]
  cases hx : x.testBit i
  · simp
  · simp only [hx, Bool.true_and] at hai hbi
    simp [hx, hai, hbi]

/-- C3: whenever a custom speed is set — to any value, including 0 — the
`speed` property returns exactly that value, whatever the `features`
bitmask and switch connection state; the feature-derived computation is
never consulted. -/
theorem speed_custom_override (i : Interface) (v : PyNum)
    (h : i._custom_speed = some v) :
    i.speed = some v := by
  unfold Interface.speed
  rw [h]

/-- C3 witness: a v0x04-connected interface advertising the 1 Tbps feature
bit but with custom speed `0` still reports speed `0`. -/
theorem speed_custom_override_witness :
    (mkIface ⟨"00:00:00:00:00:00:00:03", true, 4⟩ (some 512) (some (.int 0))).speed =
      some (.int 0) :=
  speed_custom_override _ _ rfl

/-- C4: with no custom speed and a features bitmask that sets at least one
Tier-B bit (1 Tbps, 100 Gbps or 40 Gbps full duplex) and none of the
Tier-A bits, speed resolution yields `none` unless the switch is connected
with protocol version 0x04; when it is, the Tier-B speed is returned in
the priority order 1 Tbps, 100 Gbps, 40 Gbps. -/
theorem tier_b_version_gating (i : Interface) (fts : ℕ)
    (hc : i._custom_speed = none)
    (hf : i.features = some fts)
    (hA : fts &&& (PortFeatures01.OFPPF_10MB_HD ||| PortFeatures01.OFPPF_10MB_FD |||
      PortFeatures01.OFPPF_100MB_HD ||| PortFeatures01.OFPPF_100MB_FD |||
      PortFeatures01.OFPPF_1GB_HD ||| PortFeatures01.OFPPF_1GB_FD |||
      PortFeatures01.OFPPF_10GB_FD) = 0)
    (hB : fts &&& (PortFeatures04.OFPPF_1TB_FD ||| PortFeatures04.OFPPF_100GB_FD |||
      PortFeatures04.OFPPF_40GB_FD) ≠ 0) :
    (i._is_v0x04 = false → i.speed = none) ∧
    (i._is_v0x04 = true →
      i.speed =
        some (if fts &&& PortFeatures04.OFPPF_1TB_FD ≠ 0 then
            PyNum.truediv (.int (10 ^ 12)) (.int 8)
          else if fts &&& PortFeatures04.OFPPF_100GB_FD ≠ 0 then
            PyNum.truediv (.int (100 * 10 ^ 9)) (.int 8)
          else PyNum.truediv (.int (40 * 10 ^ 9)) (.int 8))) := by
  have hA127 : fts &&& 127 = 0 := by
    have e : (PortFeatures01.OFPPF_10MB_HD ||| PortFeatures01.OFPPF_10MB_FD |||
        PortFeatures01.OFPPF_100MB_HD ||| PortFeatures01.OFPPF_100MB_FD |||
        PortFeatures01.OFPPF_1GB_HD ||| PortFeatures01.OFPPF_1GB_FD |||
        PortFeatures01.OFPPF_10GB_FD) = 127 := by decide
    rw [e] at hA
    exact hA
  have h64 : fts &&& 64 = 0 := land_sub_zero (by decide) hA127
  have h48 : fts &&& 48 = 0 := land_sub_zero (by decide) hA127
  have h12v : fts &&& 12 = 0 := land_sub_zero (by decide) hA127
  have h3v : fts &&& 3 = 0 := land_sub_zero (by decide) hA127
  have hne : fts ≠ 0 := by
    rintro rfl
    exact hB (Nat.zero_and _)
  have hTA : i._get_v0x01_v0x04_speed = none := by
    unfold Interface._get_v0x01_v0x04_speed
    rw [hf]
    have e1 : PortFeatures01.OFPPF_1GB_HD ||| PortFeatures01.OFPPF_1GB_FD = 48 := by
      decide
    have e2 : PortFeatures01.OFPPF_100MB_HD ||| PortFeatures01.OFPPF_100MB_FD = 12 := by
      decide
    have e3 : PortFeatures01.OFPPF_10MB_HD ||| PortFeatures01.OFPPF_10MB_FD = 3 := by
      decide
    rw [e1, e2, e3]
    simp [featTest, featTruthy, PortFeatures01.OFPPF_10GB_FD, h64, h48, h12v, h3v]
  have hsp : i.speed = i.get_of_features_speed := by
    unfold Interface.speed
    rw [hc]
  have hof : i.get_of_features_speed =
      if i._is_v0x04 then i._get_v0x04_speed else none := by
    unfold Interface.get_of_features_speed
    rw [hTA]
  constructor
  · intro hv
    rw [hsp, hof, hv]
    simp
  · intro hv
    rw [hsp, hof, hv, if_pos rfl]
    unfold Interface._get_v0x04_speed
    rw [hf]
    by_cases h512 : fts &&& PortFeatures04.OFPPF_1TB_FD = 0
    · by_cases h256 : fts &&& PortFeatures04.OFPPF_100GB_FD = 0
      · have h128 : fts &&& PortFeatures04.OFPPF_40GB_FD ≠ 0 := by
          intro h128
          exact hB (land_lor_eq_zero (land_lor_eq_zero h512 h256) h128)
        simp [featTest, featTruthy, hne, h512, h256, h128]
      · simp [featTest, featTruthy, hne, h512, h256]
    · simp [featTest, featTruthy, hne, h512]

/-- C4 witness: a 1 Tbps-only bitmask on a disconnected switch resolves to
unknown; the same bitmask on a v0x04-connected switch resolves to the
1 Tbps speed. -/
theorem tier_b_version_gating_witness :
    (mkIface swA (some 512) none).speed = none ∧
    (mkIface ⟨"00:00:00:00:00:00:00:04", true, 4⟩ (some 512) none).speed =
      some (PyNum.truediv (.int (10 ^ 12)) (.int 8)) := by
  constructor
  · exact (tier_b_version_gating _ 512 rfl rfl (by decide) (by decide)).1 rfl
  · have h := (tier_b_version_gating
      (mkIface ⟨"00:00:00:00:00:00:00:04", true, 4⟩ (some 512) none) 512
      rfl rfl (by decide) (by decide)).2 rfl
    rw [h]
    norm_num [PortFeatures04.OFPPF_1TB_FD]

/-- C8: the human-readable speed is the empty string when the speed is
unknown; otherwise, with `s` the resolved speed times 8: exactly `10^12`
formats as "1 Tbps", `s ≥ 10^9` as the rounded number of Gbps, anything
smaller as the rounded number of Mbps; in particular a resolved speed of
`12.5 * 10^9` bytes/sec gives "100 Gbps" and a custom speed of 0 gives
"0 Mbps". -/
theorem get_hr_speed_spec :
    (∀ i : Interface, i.speed = none → i.get_hr_speed = "") ∧
    (∀ (i : Interface) (v : PyNum), i.speed = some v →
      ((PyNum.mul v (.int 8)).toRat = 10 ^ 12 → i.get_hr_speed = "1 Tbps") ∧
      ((PyNum.mul v (.int 8)).toRat ≠ 10 ^ 12 →
        (10 ^ 9 : ℚ) ≤ (PyNum.mul v (.int 8)).toRat →
        i.get_hr_speed =
          toString (pyRound (PyNum.truediv (PyNum.mul v (.int 8)) (.int (10 ^ 9))))
            ++ " Gbps") ∧
      ((PyNum.mul v (.int 8)).toRat < 10 ^ 9 →
        i.get_hr_speed =
          toString (pyRound (PyNum.truediv (PyNum.mul v (.int 8)) (.int (10 ^ 6))))
            ++ " Mbps")) ∧
    (mkIface swA none (some (.float 12500000000))).get_hr_speed = "100 Gbps" ∧
    (mkIface swA none (some (.int 0))).get_hr_speed = "0 Mbps" := by
  have hbody : ∀ (i : Interface) (v : PyNum), i.speed = some v →
      i.get_hr_speed =
        (if (PyNum.mul v (.int 8)).toRat = 10 ^ 12 then "1 Tbps"
        else if (10 ^ 9 : ℚ) ≤ (PyNum.mul v (.int 8)).toRat then
          toString (pyRound (PyNum.truediv (PyNum.mul v (.int 8)) (.int (10 ^ 9))))
            ++ " Gbps"
        else
          toString (pyRound (PyNum.truediv (PyNum.mul v (.int 8)) (.int (10 ^ 6))))
            ++ " Mbps") := by
    intro i v hv
    unfold Interface.get_hr_speed
    rw [hv]
  refine ⟨?_, ?_, ?_, ?_⟩
  · intro i h
    unfold Interface.get_hr_speed
    rw [h]
  · intro i v hv
    rw [hbody i v hv]
    refine ⟨?_, ?_, ?_⟩
    · intro h12
      rw [if_pos h12]
    · intro h12 h9
      rw [if_neg h12, if_pos h9]
    · intro h9
      have h12 : ¬((PyNum.mul v (.int 8)).toRat = 10 ^ 12) := by
        intro heq
        rw [heq] at h9
        norm_num at h9
      rw [if_neg h12, if_neg (not_le.mpr h9)]
  · rw [hbody (mkIface swA none (some (.float 12500000000)))
      (.float 12500000000) rfl]
    norm_num [PyNum.mul, PyNum.toRat, PyNum.truediv, pyRound, ratRoundHalfToEven]
    rfl
  · rw [hbody (mkIface swA none (some (.int 0))) (.int 0) rfl]
    norm_num [PyNum.mul, PyNum.toRat, PyNum.truediv, pyRound, ratRoundHalfToEven]
    rfl

/-- C8 witness: applying the formatting theorem at a concrete resolved
speed of 125 Gbytes/sec (1 Tbps). -/
theorem get_hr_speed_spec_witness :
    (mkIface swA none (some (.float 125000000000))).get_hr_speed = "1 Tbps" :=
  (get_hr_speed_spec.2.1 (mkIface swA none (some (.float 125000000000)))
    (.float 125000000000) rfl).1 (by norm_num [PyNum.mul, PyNum.toRat])

/-- C9: an Interface equals a string iff its address equals that string; it
equals another Interface iff port number, name, address and owning switch
dpid all match — independent of any other attribute (object identity);
interfaces differing only in the switch dpid are unequal. -/
theorem interface_eq_spec :
    (∀ (i : Interface) (s : String), i.eq_str s = true ↔ i.address = some s) ∧
    (∀ i j : Interface, i.eq_iface j = true ↔
      (i.port_number = j.port_number ∧ i.name = j.name ∧
       i.address = j.address ∧ i.switch.dpid = j.switch.dpid)) ∧
    ifaceA.eq_iface ifaceB = true ∧
    ifaceA.eq_iface ifaceC = false := by
  refine ⟨?_, ?_, ?_, ?_⟩
  · intro i s
    cases h : i.address with
    | none => simp [Interface.eq_str, h]
    | some a => simp [Interface.eq_str, h]
  · intro i j
    simp [Interface.eq_iface, and_assoc]
  · rfl
  · rfl

/-- C10: every feature-derived speed is produced by true division and is
therefore float-typed (e.g. the 10 Gbps tier gives the float 1250000000
and the 1 Tbps tier the float 125000000000), and that value is what the
`speed` property and the `speed` key of `as_dict` carry; a custom speed,
by contrast, is passed through exactly as set. -/
theorem derived_speed_float_spec :
    (∀ i : Interface,
      i._get_v0x01_v0x04_speed = none ∨
        ∃ q : ℚ, i._get_v0x01_v0x04_speed = some (.float q)) ∧
    (∀ i : Interface,
      i._get_v0x04_speed = none ∨
        ∃ q : ℚ, i._get_v0x04_speed = some (.float q)) ∧
    (∀ i : Interface, i._custom_speed = none →
      i.speed = i.get_of_features_speed ∧ i.as_dict.speed = i.speed) ∧
    (∀ (i : Interface) (v : PyNum), i._custom_speed = some v →
      i.speed = some v ∧ i.as_dict.speed = some v) ∧
    (mkIface swA (some 64) none)._get_v0x01_v0x04_speed =
      some (.float 1250000000) ∧
    (mkIface ⟨"00:00:00:00:00:00:00:05", true, 4⟩ (some 512) none)._get_v0x04_speed =
      some (.float 125000000000) := by
  refine ⟨?_, ?_, ?_, ?_, ?_, ?_⟩
  · intro i
    unfold Interface._get_v0x01_v0x04_speed
    split_ifs <;> first
      | exact Or.inl rfl
      | exact Or.inr ⟨_, rfl⟩
  · intro i
    unfold Interface._get_v0x04_speed
    split_ifs <;> first
      | exact Or.inl rfl
      | exact Or.inr ⟨_, rfl⟩
  · intro i h
    constructor
    · unfold Interface.speed
      rw [h]
    · rfl
  · intro i v h
    constructor
    · unfold Interface.speed
      rw [h]
    · show i.speed = some v
      unfold Interface.speed
      rw [h]
  · show Interface._get_v0x01_v0x04_speed _ = _
    unfold Interface._get_v0x01_v0x04_speed
    norm_num [featTest, featTruthy, mkIface, PortFeatures01.OFPPF_10GB_FD,
      PyNum.truediv, PyNum.toRat]
  · show Interface._get_v0x04_speed _ = _
    unfold Interface._get_v0x04_speed
    norm_num [featTest, featTruthy, mkIface, PortFeatures04.OFPPF_1TB_FD,
      PyNum.truediv, PyNum.toRat]

/-- C10 witness: applying the float-speed theorem at concrete interfaces,
once with the custom speed unset and once with it set. -/
theorem derived_speed_float_spec_witness :
    (mkIface swA (some 64) none).speed =
      (mkIface swA (some 64) none).get_of_features_speed ∧
    (mkIface swA none (some (.int 7))).speed = some (.int 7) :=
  ⟨(derived_speed_float_spec.2.2.1 _ rfl).1,
   (derived_speed_float_spec.2.2.2.1 _ _ rfl).1⟩
